import Mathlib

/-!
Shallow embedding of the Hearts Hands of Hope backend (`src/server.js`, the
main revision) for verification of its natural-language specification.

The mutable MongoDB collections become an explicit `Db` state threaded
through each route handler.  Nondeterministic inputs of a handler —
`Date.now()`, the `Math.random()` draw, the freshly allocated Mongo `_id`,
the success of the outbound `transporter.sendMail` call, the bcrypt hash
function — are passed as explicit parameters.  A handler returns the HTTP
response (`Except Err α`, where `Err` carries the status code and the JSON
error string) together with the successor state.
-/

namespace HeartOfHope

/-- An `Admin` document (schema in `src/server.js`): optional fields
`resetToken`, `resetTokenExpiry` (a millisecond timestamp), `approvalCode`
are `Option`-valued, `none` meaning unset/undefined. -/
structure Admin where
  id : String
  username : String
  email : String
  password : String
  role : String
  resetToken : Option String := none
  resetTokenExpiry : Option Nat := none
  approvalCode : Option String := none
deriving DecidableEq

structure Volunteer where
  firstName : String
  lastName : String
  email : String
  phone : String
  skills : String
  availability : String
  date : Nat
deriving DecidableEq

structure Subscriber where
  email : String
  date : Nat
deriving DecidableEq

structure ContactMessage where
  firstName : String
  lastName : String
  email : String
  subject : String
  message : String
  date : Nat
deriving DecidableEq

structure Donation where
  name : String
  email : String
  amount : ℚ
  type : String
  date : Nat
deriving DecidableEq

structure Registrant where
  name : String
  email : String
  date : Nat
deriving DecidableEq

/-- An `Event` document with its embedded registrant list. -/
structure Event where
  id : String
  title : String
  date : Nat
  location : String
  description : String
  imageUrl : String
  registrants : List Registrant := []
deriving DecidableEq

/-- The database state: one list per collection. -/
structure Db where
  admins : List Admin
  volunteers : List Volunteer
  subscribers : List Subscriber
  messages : List ContactMessage
  donations : List Donation
  events : List Event
deriving DecidableEq

/-- A database consisting only of admin records. -/
def dbOf (admins : List Admin) : Db := ⟨admins, [], [], [], [], []⟩

/-- An HTTP error response: status code and JSON `error` string. -/
structure Err where
  status : Nat
  msg : String
deriving DecidableEq

/-- `Admin.findOne({ username })` predicate. -/
def byUsername (u : String) (a : Admin) : Bool := a.username == u

/-- `Admin.findOne({ $or: [{ username: identifier }, { email: identifier }] })`. -/
def byIdentifier (i : String) (a : Admin) : Bool := a.username == i || a.email == i

/-- `Admin.findOne({ $or: [{ username: newUsername }, { email: newEmail }] })`. -/
def byUsernameOrEmail (u e : String) (a : Admin) : Bool := a.username == u || a.email == e

/-- `Admin.findOne({ role: 'superadmin' })` predicate. -/
def isSuperadminRec (a : Admin) : Bool := a.role == "superadmin"

/-- `Event.findById(eventId)` predicate. -/
def byEventId (i : String) (e : Event) : Bool := e.id == i

/-- Mongoose `admin.save()`: write the document back into its collection,
replacing the record with the same `_id`. -/
def saveAdmin (admins : List Admin) (a : Admin) : List Admin :=
  admins.map fun x => if x.id = a.id then a else x

/-- `event.save()`: write the event document back by `_id`. -/
def saveEvent (events : List Event) (e : Event) : List Event :=
  events.map fun x => if x.id = e.id then e else x

/-- `Math.floor(100000 + Math.random() * 900000)` where `rand` is the
`Math.random()` draw (a rational in `[0, 1)`). -/
def genCode (rand : ℚ) : ℤ := ⌊(100000 : ℚ) + rand * 900000⌋

/-- `.toString()` of the generated code: its decimal rendering. -/
def codeString (rand : ℚ) : String := toString (genCode rand).toNat

/-- Number of decimal digits of a natural number. -/
def digitCount (n : Nat) : Nat := if n = 0 then 1 else Nat.log 10 n + 1

/-- The query `{ resetToken: code, resetTokenExpiry: { $gt: Date.now() } }`:
the stored token equals the supplied code and the expiry is present and
strictly in the future. -/
def matchesReset (now : Nat) (code : String) (a : Admin) : Bool :=
  a.resetToken == some code &&
    (match a.resetTokenExpiry with
     | some e => decide (now < e)
     | none => false)

/-- The JS guard `!otp || otp !== superAdmin.approvalCode`: true when the
supplied otp is absent or empty, or does not exactly equal the stored
approval code. -/
def otpMismatch (otp code : Option String) : Bool :=
  (match otp with
   | none => true
   | some s => s == "") || otp != code

/-- `POST /auth/forgot-password`.  `rand` is the `Math.random()` draw,
`emailOk` whether `transporter.sendMail` succeeds (a thrown send is caught
as a 500 after the record was already saved). -/
def forgotPassword (db : Db) (now : Nat) (rand : ℚ) (emailOk : Bool)
    (identifier : String) : Except Err Unit × Db :=
  match db.admins.find? (byIdentifier identifier) with
  | none => (.error ⟨400, "Account not found"⟩, db)
  | some admin =>
      let code := codeString rand
      let admin' := { admin with resetToken := some code,
                                 resetTokenExpiry := some (now + 900000) }
      let db' := { db with admins := saveAdmin db.admins admin' }
      if emailOk then (.ok (), db') else (.error ⟨500, "Error"⟩, db')

/-- `POST /auth/reset-password`.  Note the source clears `resetToken` only:
`admin.resetToken = undefined; await admin.save()` — `resetTokenExpiry`
is left untouched. -/
def resetPassword (db : Db) (now : Nat) (hash : String → String)
    (code newPassword : String) : Except Err Unit × Db :=
  match db.admins.find? (matchesReset now code) with
  | none => (.error ⟨400, "Invalid code"⟩, db)
  | some admin =>
      let admin' := { admin with password := hash newPassword, resetToken := none }
      (.ok (), { db with admins := saveAdmin db.admins admin' })

/-- `POST /admin/add-user`.  The guard `requestor?.role !== 'superadmin'`
denies an unknown requestor as well. `freshId` is the `_id` Mongo assigns
to the new document. -/
def addAdmin (db : Db) (hash : String → String) (freshId : String)
    (currentUser newUsername newEmail newPassword : String) : Except Err Unit × Db :=
  match db.admins.find? (byUsername currentUser) with
  | none => (.error ⟨403, "Access Denied"⟩, db)
  | some requestor =>
      if requestor.role != "superadmin" then (.error ⟨403, "Access Denied"⟩, db)
      else if db.admins.any (byUsernameOrEmail newUsername newEmail) then
        (.error ⟨400, "User exists"⟩, db)
      else
        (.ok (), { db with admins := db.admins ++
          [{ id := freshId, username := newUsername, email := newEmail,
             password := hash newPassword, role := "admin" }] })

/-- `POST /admin/delete-user`.  The self-check compares
`requestor._id.toString()` with the supplied `targetId`; deletion is
`Admin.findByIdAndDelete(targetId)`. -/
def deleteAdmin (db : Db) (currentUser targetId : String) : Except Err Unit × Db :=
  match db.admins.find? (byUsername currentUser) with
  | none => (.error ⟨403, "Access Denied"⟩, db)
  | some requestor =>
      if requestor.role != "superadmin" then (.error ⟨403, "Access Denied"⟩, db)
      else if requestor.id == targetId then (.error ⟨400, "Cannot delete self"⟩, db)
      else (.ok (), { db with admins := db.admins.filter (fun a => a.id != targetId) })

/-- The projection `Admin.find({}, '-password -resetToken -approvalCode')`:
only those three fields are dropped; `resetTokenExpiry` is kept. -/
structure RedactedAdmin where
  id : String
  username : String
  email : String
  role : String
  resetTokenExpiry : Option Nat
deriving DecidableEq

def redactAdmin (a : Admin) : RedactedAdmin :=
  ⟨a.id, a.username, a.email, a.role, a.resetTokenExpiry⟩

/-- Insert into a list sorted descending by `key` (models Mongo sort). -/
def insertDesc {α : Type} (key : α → Nat) (x : α) : List α → List α
  | [] => [x]
  | y :: ys => if key y ≤ key x then x :: y :: ys else y :: insertDesc key x ys

/-- `.sort({ date: -1 })`: newest first. -/
def sortDesc {α : Type} (key : α → Nat) : List α → List α
  | [] => []
  | y :: ys => insertDesc key y (sortDesc key ys)

/-- Insert into a list sorted ascending by `key`. -/
def insertAsc {α : Type} (key : α → Nat) (x : α) : List α → List α
  | [] => [x]
  | y :: ys => if key x ≤ key y then x :: y :: ys else y :: insertAsc key x ys

/-- `.sort({ date: 1 })`: oldest first. -/
def sortAsc {α : Type} (key : α → Nat) : List α → List α
  | [] => []
  | y :: ys => insertAsc key y (sortAsc key ys)

/-- The `POST /admin/data` response payload. -/
structure AdminDataPayload where
  volunteers : List Volunteer
  messages : List ContactMessage
  subscribers : List Subscriber
  admins : List RedactedAdmin
  donations : List Donation
  events : List Event
deriving DecidableEq

/-- `POST /admin/data`.  The handler never reads the request body — `body`
is carried only to express that the response is caller-independent. -/
def adminData (db : Db) (_body : Option String) : Except Err AdminDataPayload × Db :=
  (.ok { volunteers := sortDesc Volunteer.date db.volunteers
       , messages := sortDesc ContactMessage.date db.messages
       , subscribers := sortDesc Subscriber.date db.subscribers
       , admins := db.admins.map redactAdmin
       , donations := sortDesc Donation.date db.donations
       , events := sortAsc Event.date db.events }, db)

/-- `POST /admin/request-broadcast-otp`.  When no superadmin record exists,
`superAdmin.approvalCode = code` dereferences `null`; the thrown TypeError
is caught and surfaced as the generic 500 `Failed`. -/
def requestBroadcastOtp (db : Db) (rand : ℚ) (emailOk : Bool)
    (_currentUser _subject : String) : Except Err Unit × Db :=
  match db.admins.find? isSuperadminRec with
  | none => (.error ⟨500, "Failed"⟩, db)
  | some superAdmin =>
      let superAdmin' := { superAdmin with approvalCode := some (codeString rand) }
      let db' := { db with admins := saveAdmin db.admins superAdmin' }
      if emailOk then (.ok (), db') else (.error ⟨500, "Failed"⟩, db')

/-- `POST /send-newsletter`.  `sender.role` on a `null` sender, and
`superAdmin.approvalCode` on a missing superadmin, throw and are caught as
the generic 500 `Failed`.  On a consumed OTP the approval code is cleared
and saved before the mail is sent. -/
def sendNewsletter (db : Db) (emailOk : Bool) (_subject _message : String)
    (currentUser : String) (otp : Option String) : Except Err Nat × Db :=
  match db.admins.find? (byUsername currentUser) with
  | none => (.error ⟨500, "Failed"⟩, db)
  | some sender =>
      if sender.role != "superadmin" then
        match db.admins.find? isSuperadminRec with
        | none => (.error ⟨500, "Failed"⟩, db)
        | some superAdmin =>
            if otpMismatch otp superAdmin.approvalCode then
              (.error ⟨403, "Invalid OTP"⟩, db)
            else
              let superAdmin' := { superAdmin with approvalCode := none }
              let db' := { db with admins := saveAdmin db.admins superAdmin' }
              if emailOk then (.ok db'.subscribers.length, db')
              else (.error ⟨500, "Failed"⟩, db')
      else
        if emailOk then (.ok db.subscribers.length, db)
        else (.error ⟨500, "Failed"⟩, db)

/-- `POST /events/register`.  The registrant is pushed and the event saved
before the ticket mail is sent; a failed mail is caught as 500 with the
registration already persisted. -/
def register (db : Db) (now : Nat) (emailOk : Bool)
    (eventId name email : String) : Except Err Unit × Db :=
  match db.events.find? (byEventId eventId) with
  | none => (.error ⟨404, "Not found"⟩, db)
  | some ev =>
      if ev.registrants.any (fun r => r.email == email) then
        (.error ⟨400, "Registered"⟩, db)
      else
        let ev' := { ev with registrants := ev.registrants ++ [⟨name, email, now⟩] }
        let db' := { db with events := saveEvent db.events ev' }
        if emailOk then (.ok (), db') else (.error ⟨500, "Failed"⟩, db')

/-! ### Helper lemmas about `find?` and `saveAdmin` -/

theorem find?_congr_on {α : Type} (p q : α → Bool) :
    ∀ (l : List α), (∀ x ∈ l, p x = q x) → l.find? p = l.find? q := by
  intro l
  induction l with
  | nil => intro _; rfl
  | cons x xs ih =>
      intro h
      have hx := h x (List.mem_cons_self x xs)
      have hxs : ∀ y ∈ xs, p y = q y := fun y hy => h y (List.mem_cons_of_mem x hy)
      by_cases hq : q x = true
      · rw [List.find?_cons_of_pos _ (hx.trans hq), List.find?_cons_of_pos _ hq]
      · rw [List.find?_cons_of_neg _ (by rw [hx]; exact hq),
          List.find?_cons_of_neg _ hq, ih hxs]

/-- Saving an updated record whose `_id` matches the record `sa` already in
the collection relocates `find?`: any query whose value is unchanged on the
update finds the same document (updated in place). -/
theorem find?_saveAdmin_congr (q : Admin → Bool) (sa sa' : Admin) (admins : List Admin)
    (hid : sa'.id = sa.id) (hq : q sa' = q sa)
    (hnd : (admins.map Admin.id).Nodup) (hmem : sa ∈ admins)
    (b : Admin) (hb : admins.find? q = some b) :
    (saveAdmin admins sa').find? q = some (if b.id = sa.id then sa' else b) := by
  have hpt : ∀ x ∈ admins, (q ∘ fun x => if x.id = sa'.id then sa' else x) x = q x := by
    intro x hx
    by_cases hxid : x.id = sa'.id
    · have hxsa : x = sa :=
        List.inj_on_of_nodup_map hnd hx hmem (by rw [hxid, hid])
      subst hxsa
      simp only [Function.comp_apply, if_pos hxid, hq]
    · simp only [Function.comp_apply, if_neg hxid]
  have h1 : (saveAdmin admins sa').find? q
      = Option.map (fun x => if x.id = sa'.id then sa' else x)
          (admins.find? (q ∘ fun x => if x.id = sa'.id then sa' else x)) := by
    simp only [saveAdmin, hid]
    exact List.find?_map _ admins
  rw [h1, find?_congr_on _ q admins hpt, hb]
  by_cases hbid : b.id = sa.id <;> simp [hbid, hid]

/-- If no surviving record satisfies the reset query, `find?` fails. -/
theorem find?_saveAdmin_eq_none (q : Admin → Bool) (a' : Admin) (admins : List Admin)
    (hnew : q a' = false) (hrest : ∀ x ∈ admins, x.id ≠ a'.id → q x = false) :
    (saveAdmin admins a').find? q = none := by
  rw [List.find?_eq_none]
  intro x hx
  rcases List.mem_map.mp hx with ⟨y, hy, rfl⟩
  by_cases hyid : y.id = a'.id
  · simp [hyid, hnew]
  · simp [hyid, hrest y hy hyid]

/-! ### C1: reset-password effect on the token fields -/

/-- Demonstration hash function standing in for `bcrypt.hash`. -/
def demoHash (s : String) : String := "hashed:" ++ s

/-- A database with one admin holding an unexpired reset token. -/
def adminC1 : Admin :=
  { id := "1", username := "root", email := "root@hoh.org", password := "h0",
    role := "superadmin", resetToken := some "111111",
    resetTokenExpiry := some 1000 }

def dbC1 : Db := dbOf [adminC1]

/-- C1 as stated is false: after a successful `resetPassword` the source
clears only `resetToken`; the stale `resetTokenExpiry` (here `some 1000`)
remains stored, so token and expiry are not cleared as one atomic unit. -/
theorem C1_counterexample :
    (resetPassword dbC1 500 demoHash "111111" "newpw").1 = .ok () ∧
    (resetPassword dbC1 500 demoHash "111111" "newpw").2.admins.map
        Admin.resetToken = [none] ∧
    (resetPassword dbC1 500 demoHash "111111" "newpw").2.admins.map
        Admin.resetTokenExpiry = [some 1000] :=
  ⟨rfl, rfl, rfl⟩

/-- The matched record after a successful reset, exactly as the source
leaves it: new password hash, `resetToken` cleared, `resetTokenExpiry`
untouched. -/
def resetApplied (hash : String → String) (pw : String) (a : Admin) : Admin :=
  { a with password := hash pw, resetToken := none }

/-- C1 amended: when a record matches the supplied code with unexpired
expiry, `resetPassword` replaces its password hash and clears `resetToken`
only — `resetTokenExpiry` is left in place on the stored record; for every
other input it fails with `InvalidOrExpiredCode` (400, `Invalid code`) and
the state is unchanged. -/
theorem C1_amended (db : Db) (now : Nat) (hash : String → String) (code pw : String) :
    (∀ a, db.admins.find? (matchesReset now code) = some a →
      resetPassword db now hash code pw =
        (.ok (), { db with admins := saveAdmin db.admins (resetApplied hash pw a) }) ∧
      ∀ x ∈ saveAdmin db.admins (resetApplied hash pw a),
        x.id = a.id → x.resetTokenExpiry = a.resetTokenExpiry) ∧
    (db.admins.find? (matchesReset now code) = none →
      resetPassword db now hash code pw = (.error ⟨400, "Invalid code"⟩, db)) := by
  constructor
  · intro a ha
    constructor
    · simp [resetPassword, ha, resetApplied]
    · intro x hx hxid
      rcases List.mem_map.mp hx with ⟨y, _, rfl⟩
      by_cases hyid : y.id = (resetApplied hash pw a).id
      · simp [hyid, resetApplied]
      · rw [if_neg hyid] at hxid
        exact absurd (by simpa [resetApplied] using hxid) hyid
  · intro hnone
    simp [resetPassword, hnone]

/-- Witness for `C1_amended` at the concrete one-admin database. -/
theorem C1_witness :
    resetPassword dbC1 500 demoHash "111111" "newpw" =
      (.ok (), { dbC1 with admins := saveAdmin dbC1.admins (resetApplied demoHash "newpw" adminC1) }) :=
  ((C1_amended dbC1 500 demoHash "111111" "newpw").1 adminC1 (by decide)).1

/-! ### C3: delete-user self-action -/

def rootC3 : Admin :=
  { id := "1", username := "root", email := "root@hoh.org",
    password := "h1", role := "superadmin" }

def aliceC3 : Admin :=
  { id := "2", username := "alice", email := "alice@hoh.org",
    password := "h2", role := "admin" }

def dbC3 : Db := dbOf [rootC3, aliceC3]

/-- C3 as stated is false on two counts: a superadmin deleting itself gets
`Cannot delete self` with HTTP status 400, not 403; and a non-superadmin
whose id equals the target fails earlier with `Access Denied`, not
`CannotDeleteSelf`. -/
theorem C3_counterexample :
    (deleteAdmin dbC3 "root" "1").1 = .error ⟨400, "Cannot delete self"⟩ ∧
    (deleteAdmin dbC3 "alice" "2").1 = .error ⟨403, "Access Denied"⟩ ∧
    (400 : Nat) ≠ 403 :=
  ⟨rfl, rfl, by decide⟩

/-- C3 amended: a superadmin requestor whose own id equals `targetId` fails
with `CannotDeleteSelf` at HTTP status 400 and nothing is deleted; a
non-superadmin or unknown requestor always fails with `AccessDenied` (403)
regardless of target, and nothing is deleted. -/
theorem C3_amended (db : Db) (u tid : String) :
    (∀ r, db.admins.find? (byUsername u) = some r → r.role = "superadmin" →
      r.id = tid → deleteAdmin db u tid = (.error ⟨400, "Cannot delete self"⟩, db)) ∧
    (∀ r, db.admins.find? (byUsername u) = some r → r.role ≠ "superadmin" →
      deleteAdmin db u tid = (.error ⟨403, "Access Denied"⟩, db)) ∧
    (db.admins.find? (byUsername u) = none →
      deleteAdmin db u tid = (.error ⟨403, "Access Denied"⟩, db)) := by
  refine ⟨?_, ?_, ?_⟩
  · intro r hr hrole htid
    simp [deleteAdmin, hr, hrole, htid]
  · intro r hr hrole
    simp [deleteAdmin, hr, bne_iff_ne, hrole]
  · intro hnone
    simp [deleteAdmin, hnone]

/-- Witness for `C3_amended`: superadmin self-delete at the concrete db. -/
theorem C3_witness :
    deleteAdmin dbC3 "root" "1" = (.error ⟨400, "Cannot delete self"⟩, dbC3) :=
  (C3_amended dbC3 "root" "1").1 rootC3 rfl rfl rfl

/-! ### C4: add-user authorization and created record -/

/-- C4 confirmed: when the requestor does not resolve to role `superadmin`
(including an unknown requestor), `addAdmin` fails with `AccessDenied` and
the state is unchanged; every successful call appends exactly one record
with role `admin` and the hashed password. -/
theorem C4_theorem (db : Db) (hash : String → String) (freshId u nu ne npw : String) :
    ((∀ r, db.admins.find? (byUsername u) = some r → r.role ≠ "superadmin") →
      addAdmin db hash freshId u nu ne npw = (.error ⟨403, "Access Denied"⟩, db)) ∧
    (∀ db2, addAdmin db hash freshId u nu ne npw = (.ok (), db2) →
      ∃ rec, db2.admins = db.admins ++ [rec] ∧ rec.role = "admin" ∧
        rec.password = hash npw ∧ rec.username = nu ∧ rec.email = ne) := by
  constructor
  · intro hden
    cases hfind : db.admins.find? (byUsername u) with
    | none => simp [addAdmin, hfind]
    | some r =>
        have hr := hden r hfind
        simp [addAdmin, hfind, bne_iff_ne, hr]
  · intro db2 h
    cases hfind : db.admins.find? (byUsername u) with
    | none => simp [addAdmin, hfind] at h
    | some r =>
        by_cases hrole : r.role = "superadmin"
        · by_cases hex : db.admins.any (byUsernameOrEmail nu ne) = true
          · simp [addAdmin, hfind, hrole, hex] at h
          · simp [addAdmin, hfind, hrole, hex] at h
            refine ⟨⟨freshId, nu, ne, hash npw, "admin", none, none, none⟩,
              ?_, rfl, rfl, rfl, rfl⟩
            rw [← h]
        · simp [addAdmin, hfind, bne_iff_ne, hrole] at h

/-- Witness for `C4_theorem`: a plain admin cannot create users. -/
theorem C4_witness :
    addAdmin dbC3 demoHash "9" "alice" "bob" "bob@hoh.org" "pw" =
      (.error ⟨403, "Access Denied"⟩, dbC3) :=
  (C4_theorem dbC3 demoHash "9" "alice" "bob" "bob@hoh.org" "pw").1
    (fun r hr => by
      have h2 : some aliceC3 = some r :=
        (show dbC3.admins.find? (byUsername "alice") = some aliceC3 from rfl).symm.trans hr
      rw [← Option.some_inj.mp h2]
      decide)

/-! ### C5: single use of a reset code -/

def adminC5a : Admin :=
  { id := "1", username := "a", email := "a@hoh.org", password := "h",
    role := "admin", resetToken := some "222222", resetTokenExpiry := some 2000 }

def adminC5b : Admin :=
  { id := "2", username := "b", email := "b@hoh.org", password := "h",
    role := "admin", resetToken := some "222222", resetTokenExpiry := some 2000 }

def dbC5 : Db := dbOf [adminC5a, adminC5b]

/-- C5 as stated is false: when two admin records coincidentally store the
same unexpired code (possible, since the codes are independent random
draws), a second `resetPassword` with the same code succeeds against the
other record instead of failing. -/
theorem C5_counterexample :
    (resetPassword dbC5 100 demoHash "222222" "p1").1 = .ok () ∧
    (resetPassword (resetPassword dbC5 100 demoHash "222222" "p1").2
        100 demoHash "222222" "p2").1 = .ok () :=
  ⟨rfl, rfl⟩

/-- C5 amended: provided the record matched by code `c` is the only one
whose stored token would match `c` at the second call, a second
`resetPassword` with the same code fails with `InvalidOrExpiredCode`; and
any `resetPassword` in a state where every record storing `c` has its
expiry in the past (or no record stores `c` at all) fails with
`InvalidOrExpiredCode` and leaves the state unchanged. -/
theorem C5_amended (db : Db) (now now2 : Nat) (hash : String → String)
    (c pw pw2 : String) (a : Admin)
    (ha : db.admins.find? (matchesReset now c) = some a)
    (huniq : ∀ x ∈ db.admins, x.id ≠ a.id → matchesReset now2 c x = false) :
    (resetPassword db now hash c pw).1 = .ok () ∧
    resetPassword (resetPassword db now hash c pw).2 now2 hash c pw2 =
      (.error ⟨400, "Invalid code"⟩, (resetPassword db now hash c pw).2) ∧
    (∀ db2 : Db, (∀ x ∈ db2.admins, x.resetToken = some c →
        ∀ e, x.resetTokenExpiry = some e → e ≤ now2) →
      resetPassword db2 now2 hash c pw2 = (.error ⟨400, "Invalid code"⟩, db2)) := by
  have hstep : (resetPassword db now hash c pw) =
      (.ok (), { db with admins := saveAdmin db.admins (resetApplied hash pw a) }) := by
    simp [resetPassword, ha, resetApplied]
  refine ⟨by rw [hstep], ?_, ?_⟩
  · have hnone : (saveAdmin db.admins (resetApplied hash pw a)).find?
        (matchesReset now2 c) = none := by
      apply find?_saveAdmin_eq_none
      · simp [matchesReset, resetApplied]
      · intro x hx hxid
        exact huniq x hx (by simpa [resetApplied] using hxid)
    rw [hstep]
    simp [resetPassword, hnone]
  · intro db2 hexp
    have hnone : db2.admins.find? (matchesReset now2 c) = none := by
      rw [List.find?_eq_none]
      intro x hx hmat
      cases hexpf : x.resetTokenExpiry with
      | none => simp [matchesReset, hexpf] at hmat
      | some e =>
          simp [matchesReset, hexpf] at hmat
          exact absurd hmat.2 (not_lt.mpr (hexp x hx hmat.1 e hexpf))
    simp [resetPassword, hnone]

/-- Witness for `C5_amended` at a one-admin database. -/
theorem C5_witness :
    (resetPassword dbC1 500 demoHash "111111" "p1").1 = .ok () ∧
    resetPassword (resetPassword dbC1 500 demoHash "111111" "p1").2
        500 demoHash "111111" "p2" =
      (.error ⟨400, "Invalid code"⟩, (resetPassword dbC1 500 demoHash "111111" "p1").2) := by
  have h := C5_amended dbC1 500 500 demoHash "111111" "p1" "p2" adminC1 rfl (by decide)
  exact ⟨h.1, h.2.1⟩

/-! ### C6: broadcast-otp request overwrites the pending code -/

/-- The superadmin record after `requestBroadcastOtp` stored a fresh code. -/
def otpStored (rand : ℚ) (sa : Admin) : Admin :=
  { sa with approvalCode := some (codeString rand) }

/-- C6 confirmed: every `requestBroadcastOtp` call (with a superadmin
record present) stores the freshly generated code as that record's
`approvalCode`, overwriting whatever pending code was stored there, so a
single approval is pending afterwards. -/
theorem C6_theorem (db : Db) (rand : ℚ) (emailOk : Bool) (u s : String) (sa : Admin)
    (hnd : (db.admins.map Admin.id).Nodup)
    (hsa : db.admins.find? isSuperadminRec = some sa) :
    (requestBroadcastOtp db rand emailOk u s).2.admins.find? isSuperadminRec =
      some (otpStored rand sa) := by
  have hstate : (requestBroadcastOtp db rand emailOk u s).2 =
      { db with admins := saveAdmin db.admins (otpStored rand sa) } := by
    cases emailOk <;> simp [requestBroadcastOtp, hsa, otpStored]
  rw [hstate]
  have h := find?_saveAdmin_congr isSuperadminRec sa (otpStored rand sa) db.admins
    rfl rfl hnd (List.mem_of_find?_eq_some hsa) sa hsa
  simpa using h

/-- Witness for `C6_theorem` at the concrete db whose superadmin holds no
prior code. -/
theorem C6_witness :
    (requestBroadcastOtp dbC3 (1/2) true "alice" "subj").2.admins.find? isSuperadminRec =
      some (otpStored (1/2) rootC3) :=
  C6_theorem dbC3 (1/2) true "alice" "subj" rootC3 (by decide) rfl

/-! ### C7: code format and reset expiry window -/

/-- The matched record after `forgotPassword` issued a code at time `now`. -/
def resetIssued (now : Nat) (rand : ℚ) (a : Admin) : Admin :=
  { a with resetToken := some (codeString rand),
           resetTokenExpiry := some (now + 900000) }

/-- C7 confirmed: for every `Math.random()` draw in `[0, 1)` the generated
one-time code is an integer in `[100000, 999999]`, hence exactly 6 decimal
digits; and `forgotPassword` stores `resetTokenExpiry` exactly
`900000` ms (15 minutes) after issuance time. -/
theorem C7_theorem (rand : ℚ) (h0 : 0 ≤ rand) (h1 : rand < 1)
    (db : Db) (now : Nat) (emailOk : Bool) (identifier : String) (a : Admin)
    (ha : db.admins.find? (byIdentifier identifier) = some a) :
    100000 ≤ genCode rand ∧ genCode rand ≤ 999999 ∧
    digitCount (genCode rand).toNat = 6 ∧
    (forgotPassword db now rand emailOk identifier).2.admins =
      saveAdmin db.admins (resetIssued now rand a) := by
  have hlo : (100000 : ℤ) ≤ genCode rand := by
    rw [genCode, Int.le_floor]
    push_cast
    nlinarith
  have hhi : genCode rand ≤ 999999 := by
    have hlt : genCode rand < 1000000 := by
      rw [genCode, Int.floor_lt]
      push_cast
      nlinarith
    omega
  refine ⟨hlo, hhi, ?_, ?_⟩
  · have hn1 : 100000 ≤ (genCode rand).toNat := by omega
    have hn2 : (genCode rand).toNat ≤ 999999 := by omega
    have hlog : Nat.log 10 (genCode rand).toNat = 5 :=
      Nat.log_eq_of_pow_le_of_lt_pow (by norm_num; omega) (by norm_num; omega)
    rw [digitCount, if_neg (by omega), hlog]
  · cases emailOk <;> simp [forgotPassword, ha, resetIssued]

/-- Witness for `C7_theorem` at the draw `1/2` and the one-admin db. -/
theorem C7_witness :
    100000 ≤ genCode (1/2) ∧ genCode (1/2) ≤ 999999 ∧
    digitCount (genCode (1/2)).toNat = 6 ∧
    (forgotPassword dbC1 0 (1/2) true "root").2.admins =
      saveAdmin dbC1.admins (resetIssued 0 (1/2) adminC1) :=
  C7_theorem (1/2) (by norm_num) (by norm_num) dbC1 0 true "root" adminC1 rfl

/-! ### C8: event registration -/

/-- The event after appending one registrant, as `event.save()` persists it. -/
def registered (now : Nat) (nm em : String) (ev : Event) : Event :=
  { ev with registrants := ev.registrants ++ [⟨nm, em, now⟩] }

/-- C8 confirmed: `register` fails with `NotFound` (404) if the event is
absent and `AlreadyRegistered` (400) if the email is already present; a
successful call appends exactly one registrant, and the persisted state is
identical whether the ticket email succeeds or throws — the registration
is saved before the send and is not rolled back on send failure. -/
theorem C8_theorem (db : Db) (now : Nat) (eid nm em : String) :
    (db.events.find? (byEventId eid) = none →
      ∀ eok, register db now eok eid nm em = (.error ⟨404, "Not found"⟩, db)) ∧
    (∀ ev, db.events.find? (byEventId eid) = some ev →
      (ev.registrants.any (fun r => r.email == em) = true →
        ∀ eok, register db now eok eid nm em = (.error ⟨400, "Registered"⟩, db)) ∧
      (ev.registrants.any (fun r => r.email == em) = false →
        register db now true eid nm em =
          (.ok (), { db with events := saveEvent db.events (registered now nm em ev) }) ∧
        register db now false eid nm em =
          (.error ⟨500, "Failed"⟩, { db with events := saveEvent db.events (registered now nm em ev) }) ∧
        (registered now nm em ev).registrants.length = ev.registrants.length + 1)) := by
  refine ⟨?_, ?_⟩
  · intro hnone eok
    simp [register, hnone]
  · intro ev hev
    refine ⟨?_, ?_⟩
    · intro hdup eok
      simp [register, hev, hdup]
    · intro hnew
      refine ⟨?_, ?_, ?_⟩
      · simp [register, hev, hnew, registered]
      · simp [register, hev, hnew, registered]
      · simp [registered]

/-- Witness for `C8_theorem`: a fresh registration on a one-event db. -/
def eventC8 : Event :=
  { id := "e1", title := "Gala", date := 10, location := "Hall",
    description := "", imageUrl := "" }

def dbC8 : Db := ⟨[], [], [], [], [], [eventC8]⟩

theorem C8_witness :
    register dbC8 5 true "e1" "Ann" "ann@x.org" =
      (.ok (), { dbC8 with events := saveEvent dbC8.events (registered 5 "Ann" "ann@x.org" eventC8) }) := by
  have h := C8_theorem dbC8 5 "e1" "Ann" "ann@x.org"
  exact ((h.2 eventC8 rfl).2 rfl).1

/-! ### C9: the bulk read is unauthenticated and keeps `resetTokenExpiry` -/

/-- C9 confirmed: `/admin/data` performs no requestor, role or credential
check — its response is independent of the request body and always
succeeds for every state — and of the Admin secrets only `password`,
`resetToken` and `approvalCode` are dropped by the projection:
`resetTokenExpiry` is returned unredacted. -/
theorem C9_theorem (db : Db) (b1 b2 : Option String) :
    adminData db b1 = adminData db b2 ∧
    (adminData db b1).2 = db ∧
    (∃ payload, (adminData db b1).1 = .ok payload ∧
      payload.admins = db.admins.map redactAdmin) ∧
    (∀ a : Admin, (redactAdmin a).resetTokenExpiry = a.resetTokenExpiry) :=
  ⟨rfl, rfl, ⟨_, rfl, rfl⟩, fun _ => rfl⟩

/-! ### C10: newsletter null dereferences surface as the generic 500 -/

def dbC10 : Db := dbOf [aliceC3]

/-- C10 confirmed: when `currentUser` matches no admin record,
`sender.role` dereferences `null` and the caller gets the generic 500
`Failed`; likewise, a non-superadmin call while no superadmin record
exists dereferences `superAdmin.approvalCode` and gets the same 500 —
never `InvalidOtp`, `AccessDenied` or a not-found error. -/
theorem C10_theorem (db : Db) (emailOk : Bool) (subj msg u : String) (otp : Option String) :
    (db.admins.find? (byUsername u) = none →
      sendNewsletter db emailOk subj msg u otp = (.error ⟨500, "Failed"⟩, db)) ∧
    (∀ sender, db.admins.find? (byUsername u) = some sender →
      sender.role ≠ "superadmin" →
      db.admins.find? isSuperadminRec = none →
      sendNewsletter db emailOk subj msg u otp = (.error ⟨500, "Failed"⟩, db)) := by
  constructor
  · intro h
    simp [sendNewsletter, h]
  · intro sender hs hrole hsa
    simp [sendNewsletter, hs, hsa, bne_iff_ne, hrole]

/-- Witness for `C10_theorem`: unknown sender, and known non-superadmin
sender with no superadmin record, both get the 500 `Failed`. -/
theorem C10_witness :
    sendNewsletter dbC10 true "s" "m" "ghost" none = (.error ⟨500, "Failed"⟩, dbC10) ∧
    sendNewsletter dbC10 true "s" "m" "alice" none = (.error ⟨500, "Failed"⟩, dbC10) := by
  have h := C10_theorem dbC10 true "s" "m" "ghost" none
  have h2 := C10_theorem dbC10 true "s" "m" "alice" none
  exact ⟨h.1 rfl, h2.2 aliceC3 rfl (by decide) rfl⟩

/-! ### C2: newsletter OTP gating -/

/-- The superadmin record after its approval code has been consumed. -/
def otpCleared (sa : Admin) : Admin := { sa with approvalCode := none }

theorem otpCleared_approvalCode (sa : Admin) : (otpCleared sa).approvalCode = none := rfl

theorem otpCleared_id (sa : Admin) : (otpCleared sa).id = sa.id := rfl

/-- C2 confirmed: a superadmin sender broadcasts with no code; a
non-superadmin sender must supply a non-empty `otp` exactly equal to the
superadmin's stored `approvalCode` — on mismatch or absence the call fails
with `InvalidOtp` (403) and the state (hence the stored code) is untouched,
so a later correct attempt still succeeds; on success the code is cleared
at once, so a repeat use of the same `otp` fails with `InvalidOtp`. -/
theorem C2_theorem (db : Db) (s1 m1 s2 m2 u : String) (otp : Option String)
    (emailOk : Bool) (sender : Admin)
    (hnd : (db.admins.map Admin.id).Nodup)
    (hs : db.admins.find? (byUsername u) = some sender) :
    (sender.role = "superadmin" →
      sendNewsletter db true s1 m1 u none = (.ok db.subscribers.length, db)) ∧
    (∀ sa, sender.role ≠ "superadmin" →
      db.admins.find? isSuperadminRec = some sa →
      (otpMismatch otp sa.approvalCode = true →
        sendNewsletter db emailOk s1 m1 u otp = (.error ⟨403, "Invalid OTP"⟩, db)) ∧
      (otpMismatch otp sa.approvalCode = false →
        sendNewsletter db true s1 m1 u otp =
          (.ok db.subscribers.length, { db with admins := saveAdmin db.admins (otpCleared sa) }) ∧
        sendNewsletter { db with admins := saveAdmin db.admins (otpCleared sa) } emailOk s2 m2 u otp =
          (.error ⟨403, "Invalid OTP"⟩, { db with admins := saveAdmin db.admins (otpCleared sa) }))) := by
  constructor
  · intro hrole
    simp [sendNewsletter, hs, hrole]
  · intro sa hrole hsa
    have hsarole : sa.role = "superadmin" := by
      have := List.find?_some hsa
      simpa [isSuperadminRec] using this
    constructor
    · intro hmis
      simp [sendNewsletter, hs, hsa, bne_iff_ne, hrole, hmis]
    · intro hmis
      have hok : sendNewsletter db true s1 m1 u otp =
          (.ok db.subscribers.length, { db with admins := saveAdmin db.admins (otpCleared sa) }) := by
        simp [sendNewsletter, hs, hsa, bne_iff_ne, hrole, hmis, otpCleared]
      refine ⟨hok, ?_⟩
      have hsmem := List.mem_of_find?_eq_some hs
      have hsamem := List.mem_of_find?_eq_some hsa
      have hne : sender.id ≠ sa.id := by
        intro hEq
        have hssa : sender = sa := List.inj_on_of_nodup_map hnd hsmem hsamem hEq
        rw [hssa] at hrole
        exact hrole hsarole
      have hs' : (saveAdmin db.admins (otpCleared sa)).find? (byUsername u) = some sender := by
        have h := find?_saveAdmin_congr (byUsername u) sa (otpCleared sa) db.admins
          rfl rfl hnd hsamem sender hs
        simpa [if_neg hne] using h
      have hsa' : (saveAdmin db.admins (otpCleared sa)).find? isSuperadminRec =
          some (otpCleared sa) := by
        have h := find?_saveAdmin_congr isSuperadminRec sa (otpCleared sa) db.admins
          rfl rfl hnd hsamem sa hsa
        simpa using h
      have hrepeat : otpMismatch otp none = true := by
        cases otp with
        | none => simp [otpMismatch] at hmis
        | some s => simp [otpMismatch]
      simp [sendNewsletter, hs', hsa', bne_iff_ne, hrole, otpCleared_approvalCode, hrepeat]

/-- Witness for `C2_theorem`: an admin consumes the approval code once;
the same otp is rejected on the repeat attempt. -/
def rootC2 : Admin :=
  { id := "1", username := "root", email := "root@hoh.org", password := "h",
    role := "superadmin", approvalCode := some "654321" }

def aliceC2 : Admin :=
  { id := "2", username := "alice", email := "alice@hoh.org", password := "h",
    role := "admin" }

def dbC2 : Db := ⟨[rootC2, aliceC2], [], [⟨"sub@x.org", 1⟩], [], [], []⟩

theorem C2_witness :
    sendNewsletter dbC2 true "s1" "m1" "alice" (some "654321") =
      (.ok dbC2.subscribers.length, { dbC2 with admins := saveAdmin dbC2.admins (otpCleared rootC2) }) ∧
    sendNewsletter { dbC2 with admins := saveAdmin dbC2.admins (otpCleared rootC2) } true "s2" "m2" "alice" (some "654321") =
      (.error ⟨403, "Invalid OTP"⟩, { dbC2 with admins := saveAdmin dbC2.admins (otpCleared rootC2) }) := by
  have h := C2_theorem dbC2 "s1" "m1" "s2" "m2" "alice" (some "654321") true aliceC2
    (by decide) rfl
  exact (h.2 rootC2 (by decide) rfl).2 rfl

end HeartOfHope
